import Mathlib

/-!
# RegisterService (pushCollector): registration handshake with the push initiator

Shallow embedding of `pushCollector/src/service/RegisterService.cpp`.

* Member functions become functions over the explicit member state `State`; the
  reply object behind `m_reply` is represented by what it holds once it finished.
* Every non-const call on a collaborator (device platform, access manager, reply,
  user DAO, the emitted signal) is recorded, in program order, as an `Effect`.
  `qDebug()` output is not recorded.
* `QString` is `String`, `QByteArray` is a list of bytes, C++ `int` is `Int`
  (no arithmetic is performed on it).
* `QObject::tr` is modelled in the source language: it returns its source text.
-/

namespace RegisterService

/-! ## Data model -/

/-- Bytes as delivered by `QIODevice::readAll`. -/
abbrev QByteArray := List UInt8

/-- User record: the two accessors `userId()` and `password()` used by the service. -/
structure User where
  userId : String
  password : String
deriving DecidableEq, Repr

/-- Configuration value object returned by `m_configurationService.configuration()`. -/
structure Configuration where
  pushInitiatorUrl : String
  providerApplicationId : String
  usingPublicPushProxyGateway : Bool
deriving DecidableEq, Repr

/-- A parsed `QUrl`: the target (scheme, authority and path, as written), the
query as the list of pairs `queryItems()` reports, and the fragment if there is
one. Percent-encoding is not represented: keys and values are the decoded
texts. -/
structure QUrl where
  target : String
  queryItems : List (String × String)
  fragment : Option String
deriving DecidableEq, Repr

/-- Cuts a text at the first occurrence of a delimiter: the part before it and,
when the delimiter occurs, the part after it. -/
def splitFirst (d : Char) : List Char → List Char × Option (List Char)
  | [] => ([], none)
  | c :: cs =>
      if c = d then ([], some cs)
      else ((c :: (splitFirst d cs).1), (splitFirst d cs).2)

/-- The pair an item of the query stands for: the key and, after the first `=`,
the value (empty when there is no `=`). -/
def queryPair (key : List Char) (value : Option (List Char)) : String × String :=
  (String.mk key, String.mk (value.getD []))

/-- Reads the items of a query text as `QUrl::queryItems` does: items are
separated by `&`, key and value by the first `=` of the item; the text after the
last `&` is an item only if it is not empty. The first argument is the item
being read, if one has been started. -/
def queryItemsFrom :
    Option (List Char × Option (List Char)) → List Char → List (String × String)
  | none, [] => []
  | some (key, value), [] => [queryPair key value]
  | none, c :: cs =>
      if c = '&' then queryPair [] none :: queryItemsFrom none cs
      else if c = '=' then queryItemsFrom (some ([], some [])) cs
      else queryItemsFrom (some ([c], none)) cs
  | some (key, value), c :: cs =>
      if c = '&' then queryPair key value :: queryItemsFrom none cs
      else match value with
        | none =>
            if c = '=' then queryItemsFrom (some (key, some [])) cs
            else queryItemsFrom (some (key ++ [c], none)) cs
        | some v => queryItemsFrom (some (key, some (v ++ [c]))) cs

/-- The constructor `QUrl(const QString &)`: the text is parsed; what follows the
first `#` is the fragment, and what stands between the first `?` before it and
the fragment is the query. -/
def QUrl.ofString (text : String) : QUrl :=
  let beforeFragment := splitFirst '#' text.data
  let beforeQuery := splitFirst '?' beforeFragment.1
  { target := String.mk beforeQuery.1
    queryItems :=
      match beforeQuery.2 with
      | none => []
      | some query => queryItemsFrom none query
    fragment := beforeFragment.2.map String.mk }

/-- Appends the pair `key = value` to the query of the URL (`QUrl::addQueryItem`);
the query the URL already has stays in front of it. -/
def QUrl.addQueryItem (u : QUrl) (key value : String) : QUrl :=
  { u with queryItems := u.queryItems ++ [(key, value)] }

/-- One certificate error reported by the transport (`QSslError`): the error kind
and the certificate it concerns. -/
structure QSslError where
  error : Int
  certificate : QByteArray
deriving DecidableEq, Repr

/-- The `QNetworkReply` behind `m_reply` as `httpFinished` observes it, that is once
its `finished()` signal fires: `error()`, `errorString()` and the bytes `readAll()`
hands out. -/
structure QNetworkReply where
  error : Int
  errorString : String
  readAll : QByteArray
deriving DecidableEq, Repr

/-- The enumerator `QNetworkReply::NoError`. -/
def NoError : Int := 0

/-- Return value of a successful BPS call (`bps/bps.h`). -/
def BPS_SUCCESS : Int := 0

/-- Return value of a failed BPS call (`bps/bps.h`). -/
def BPS_FAILURE : Int := -1

/-- What the device platform answers during one initialize / get-details /
shutdown round: the return codes of `bps_initialize()` (field `bps_init`) and
`deviceinfo_get_details()`, and the two detail strings. -/
structure Bps where
  bps_init : Int
  deviceinfo_get_details : Int
  device_os_version : String
  hardware_id : String
deriving DecidableEq, Repr

/-- Calls the service makes on its collaborators, in program order (`bps_init`
is the call of `bps_initialize()`). -/
inductive Effect where
  | bps_init
  | deviceinfo_get_details
  | deviceinfo_free_details
  | bps_shutdown
  | connectSslErrors
  | get (url : QUrl)
  | connectFinished
  | readAll
  | save (user : User)
  | piRegistrationCompleted (code : Int) (description : String)
  | deleteLater
  | ignoreSslErrors (reply : QNetworkReply) (errors : List QSslError)
deriving DecidableEq, Repr

/-- Member state of the service. `m_reply` is a pointer: `none` is the null pointer
the constructor installs. `m_configurationService` is represented by the
configuration it returns; `m_accessManager` and `m_userDAO` appear through the
effects performed on them. -/
structure State where
  m_configurationService : Configuration
  m_currentUser : User
  m_reply : Option QNetworkReply
deriving DecidableEq, Repr

/-! ## Qt string helpers -/

/-- Source-language behaviour of `QObject::tr`: the source text itself. -/
def tr (sourceText : String) : String := sourceText

/-- Value of a decimal digit (`QChar::digitValue` on the ASCII digits). -/
def digitValue (c : Char) : Option Nat :=
  if c.isDigit then some (c.toNat - 48) else none

/-- Pieces of a format string: literal text, or a place marker `%n` / `%Ln`
together with the characters it was written with. -/
inductive Piece where
  | text (c : Char)
  | marker (n : Nat) (raw : List Char)
deriving DecidableEq, Repr

/-- Scanner state while looking for place markers. -/
inductive Scan where
  | plain
  | percent (raw : List Char)
  | digit (n : Nat) (raw : List Char)
deriving DecidableEq, Repr

/-- Literal pieces for characters that turned out not to form a marker. -/
def asText (raw : List Char) : List Piece := raw.map Piece.text

/-- Splits a format string into pieces the way `QString::arg` recognises place
markers: `%`, an optional `L`, then one or two decimal digits. -/
def pieces : Scan → List Char → List Piece
  | .plain, [] => []
  | .percent raw, [] => asText raw
  | .digit n raw, [] => [.marker n raw]
  | .plain, c :: cs =>
      if c = '%' then pieces (.percent ['%']) cs else .text c :: pieces .plain cs
  | .percent raw, c :: cs =>
      if c = 'L' ∧ raw = ['%'] then pieces (.percent (raw ++ [c])) cs
      else match digitValue c with
        | some d => pieces (.digit d (raw ++ [c])) cs
        | none =>
            if c = '%' then asText raw ++ pieces (.percent ['%']) cs
            else asText raw ++ .text c :: pieces .plain cs
  | .digit n raw, c :: cs =>
      match digitValue c with
      | some d => .marker (10 * n + d) (raw ++ [c]) :: pieces .plain cs
      | none =>
          if c = '%' then .marker n raw :: pieces (.percent ['%']) cs
          else .marker n raw :: .text c :: pieces .plain cs

/-- The lowest marker number occurring among the pieces, if any. -/
def minEscape : List Piece → Option Nat
  | [] => none
  | .text _ :: ps => minEscape ps
  | .marker n _ :: ps =>
      match minEscape ps with
      | some m => some (min n m)
      | none => some n

/-- Rebuilds the string, writing `a` for every marker numbered `m`. -/
def replaceEscapes (m : Nat) (a : List Char) : List Piece → List Char
  | [] => []
  | .text c :: ps => c :: replaceEscapes m a ps
  | .marker n raw :: ps =>
      if n = m then a ++ replaceEscapes m a ps else raw ++ replaceEscapes m a ps

/-- The one-argument `QString::arg(const QString &)`: every occurrence of the
lowest-numbered place marker is replaced by `a`; a string without a marker is
returned unchanged. -/
def arg (s a : String) : String :=
  match minEscape (pieces .plain s.data) with
  | none => s
  | some m => String.mk (replaceEscapes m a.data (pieces .plain s.data))

/-! ## The service -/

/-- The constructor: `m_reply(0)` and the connection of the access manager's
`sslErrors` signal to `onSslErrors`. The configuration service and the current
user as default-constructed are given. -/
def new (m_configurationService : Configuration) (m_currentUser : User) :
    State × List Effect :=
  ({ m_configurationService := m_configurationService
     m_currentUser := m_currentUser
     m_reply := none },
   [.connectSslErrors])

/-- The member `deviceVersion()`: the OS version reported by the platform, or
the default-constructed (empty) string when a BPS call fails. -/
def deviceVersion (p : Bps) : String × List Effect :=
  let deviceVersion : String := ""
  if p.bps_init = BPS_SUCCESS then
    if p.deviceinfo_get_details = BPS_SUCCESS then
      (p.device_os_version,
        [.bps_init, .deviceinfo_get_details, .deviceinfo_free_details, .bps_shutdown])
    else
      (deviceVersion, [.bps_init, .deviceinfo_get_details, .bps_shutdown])
  else
    (deviceVersion, [.bps_init])

/-- The member `deviceModel()`: the hardware identifier reported by the
platform, or the default-constructed (empty) string when a BPS call fails. -/
def deviceModel (p : Bps) : String × List Effect :=
  let deviceModel : String := ""
  if p.bps_init = BPS_SUCCESS then
    if p.deviceinfo_get_details = BPS_SUCCESS then
      (p.hardware_id,
        [.bps_init, .deviceinfo_get_details, .deviceinfo_free_details, .bps_shutdown])
    else
      (deviceModel, [.bps_init, .deviceinfo_get_details, .bps_shutdown])
  else
    (deviceModel, [.bps_init])

/-- The URL assembled by `subscribeToPushInitiator`, given the two strings the
device queries returned. -/
def subscribeUrl (config : Configuration) (user : User) (token : String)
    (osversion model : String) : QUrl :=
  let url : QUrl := QUrl.ofString (config.pushInitiatorUrl ++ "/subscribe")
  let url := url.addQueryItem "appid" config.providerApplicationId
  let url := url.addQueryItem "address" token
  let url := url.addQueryItem "osversion" osversion
  let url := url.addQueryItem "model" model
  let url := url.addQueryItem "username" user.userId
  let url := url.addQueryItem "password" user.password
  if config.usingPublicPushProxyGateway then
    url.addQueryItem "type" "public"
  else
    url.addQueryItem "type" "bds"

/-- The member `subscribeToPushInitiator(user, token)`. `get` stands for
`m_accessManager.get`: the reply object the transport creates for a request, in
the state it will have when its `finished()` signal is delivered. `forVersion`
and `forModel` are the platform's answers during the two device queries. -/
def subscribeToPushInitiator (get : QUrl → QNetworkReply) (forVersion forModel : Bps)
    (self : State) (user : User) (token : String) : State × List Effect :=
  let config := self.m_configurationService
  let version := deviceVersion forVersion
  let model := deviceModel forModel
  let url := subscribeUrl config user token version.1 model.1
  ({ self with m_currentUser := user, m_reply := some (get url) },
   version.2 ++ model.2 ++ [.get url, .connectFinished])

/-- The slot `httpFinished()`. `fromUtf8` stands for `QString::fromUtf8`. The
result is `none` when `m_reply` is the null pointer (the dereference is
undefined); otherwise the calls made, in order. The member state is left as it
was. -/
def httpFinished (fromUtf8 : QByteArray → String) (self : State) : Option (List Effect) :=
  match self.m_reply with
  | none => none
  | some m_reply =>
    let code : Int := -1
    let description : String := ""
    let (code, description, done) : Int × String × List Effect :=
      if m_reply.error = NoError then
        let returnCode := fromUtf8 m_reply.readAll
        if returnCode = "rc=200" then
          (200, description, [.readAll, .save self.m_currentUser])
        else if returnCode = "rc=10001" then
          (10001, tr "Error: The token from the create channel was null, empty, or longer than 40 characters in length.", [.readAll])
        else if returnCode = "rc=10011" then
          (10011, tr "Error: The OS version or device model of the BlackBerry was invalid.", [.readAll])
        else if returnCode = "rc=10002" then
          (10002, tr "Error: The application ID specified in the configuration settings could not be found, or it was found to be inactive or expired.", [.readAll])
        else if returnCode = "rc=10020" then
          (10020, tr ("Error: The subscriber ID generated by the Push Initiator (based on the username and password specified) was null or empty, "
                      ++ "longer than 42 characters in length, or matched the 'push_all' keyword."), [.readAll])
        else if returnCode = "rc=10025" then
          (10025, tr "Error: The Push Initiator application has the bypass subscription flag set to true (so no subscribe is allowed).", [.readAll])
        else if returnCode = "rc=10026" then
          (10026, tr "Error: The username or password specified was incorrect.", [.readAll])
        else if returnCode = "rc=10027" then
          (10027, tr ("Error: A CPSubscriptionFailureException was thrown by the onSubscribeSuccess method of the implementation "
                      ++ "being used of the ContentProviderSubscriptionService interface."), [.readAll])
        else if returnCode = "rc=10028" then
          (10028, tr "Error: The type specified was null, empty, or not one of 'public' or 'bds', or invalid for the push application type.", [.readAll])
        else if returnCode = "rc=-9999" then
          (-9999, tr "Error: General error (i.e. rc=-9999).", [.readAll])
        else
          (code, arg (tr "Error: Unknown error code: %0.") returnCode, [.readAll])
      else
        (m_reply.error, m_reply.errorString, [])
    some (done ++ [.piRegistrationCompleted code description, .deleteLater])

/-- The slot `onSslErrors(reply, errors)`: the reply is told to ignore the errors
it was handed. -/
def onSslErrors (reply : QNetworkReply) (errors : List QSslError) : List Effect :=
  [.ignoreSslErrors reply errors]

/-! ## Observations on traces and the response vocabulary -/

/-- The `(code, description)` pairs of the `piRegistrationCompleted` emissions of a
trace, in order. -/
def notifications : List Effect → List (Int × String)
  | [] => []
  | .piRegistrationCompleted code description :: es => (code, description) :: notifications es
  | _ :: es => notifications es

/-- The users handed to `m_userDAO.save` in a trace, in order. -/
def saved : List Effect → List User
  | [] => []
  | .save user :: es => user :: saved es
  | _ :: es => saved es

/-- The URLs handed to `m_accessManager.get` in a trace, in order. -/
def requested : List Effect → List QUrl
  | [] => []
  | .get url :: es => url :: requested es
  | _ :: es => requested es

/-- The error lists handed to `ignoreSslErrors` in a trace, in order. -/
def ignored : List Effect → List (List QSslError)
  | [] => []
  | .ignoreSslErrors _ errors :: es => errors :: ignored es
  | _ :: es => ignored es

/-- The ten response tokens `httpFinished` compares the body with, in the order
of its branches. -/
def tokens : List String :=
  ["rc=200", "rc=10001", "rc=10011", "rc=10002", "rc=10020", "rc=10025", "rc=10026",
   "rc=10027", "rc=10028", "rc=-9999"]

/-- The rows `(token, code, description)` of the response table, with the message
texts of the branches of `httpFinished`. -/
def responseTable : List (String × Int × String) :=
  [("rc=200", 200, ""),
   ("rc=10001", 10001, "Error: The token from the create channel was null, empty, or longer than 40 characters in length."),
   ("rc=10011", 10011, "Error: The OS version or device model of the BlackBerry was invalid."),
   ("rc=10002", 10002, "Error: The application ID specified in the configuration settings could not be found, or it was found to be inactive or expired."),
   ("rc=10020", 10020, "Error: The subscriber ID generated by the Push Initiator (based on the username and password specified) was null or empty, longer than 42 characters in length, or matched the 'push_all' keyword."),
   ("rc=10025", 10025, "Error: The Push Initiator application has the bypass subscription flag set to true (so no subscribe is allowed)."),
   ("rc=10026", 10026, "Error: The username or password specified was incorrect."),
   ("rc=10027", 10027, "Error: A CPSubscriptionFailureException was thrown by the onSubscribeSuccess method of the implementation being used of the ContentProviderSubscriptionService interface."),
   ("rc=10028", 10028, "Error: The type specified was null, empty, or not one of 'public' or 'bds', or invalid for the push application type."),
   ("rc=-9999", -9999, "Error: General error (i.e. rc=-9999).")]

/-- Decoder used in the concrete scenarios: 7-bit bytes are the characters they
encode in UTF-8, any other byte becomes U+FFFD. -/
def decode7bit (bytes : QByteArray) : String :=
  String.mk (bytes.map fun b => if b.toNat < 128 then Char.ofNat b.toNat else Char.ofNat 0xFFFD)

/-- The bytes of a 7-bit text. -/
def encode7bit (text : String) : QByteArray :=
  text.data.map fun c => UInt8.ofNat c.toNat

/-! ## Scenario data -/

/-- Configuration of the end-to-end scenarios. -/
def exampleConfig : Configuration :=
  { pushInitiatorUrl := "https://pi.example"
    providerApplicationId := "app1"
    usingPublicPushProxyGateway := true }

/-- User of the end-to-end scenarios. -/
def alice : User := { userId := "alice", password := "secret" }

/-- Device platform that answers both calls successfully. -/
def z10 : Bps :=
  { bps_init := BPS_SUCCESS
    deviceinfo_get_details := BPS_SUCCESS
    device_os_version := "10.3"
    hardware_id := "Z10" }

/-- Freshly constructed service of the end-to-end scenarios. -/
def fresh : State := (new exampleConfig { userId := "", password := "" }).1

/-- A reply that finished without transport error and with the given text as body. -/
def replyWith (body : String) : QNetworkReply :=
  { error := NoError, errorString := "Unknown error", readAll := encode7bit body }

/-- Configuration whose base URL already carries a query. -/
def debugConfig : Configuration :=
  { pushInitiatorUrl := "https://pi.example/pi?debug=1"
    providerApplicationId := "app1"
    usingPublicPushProxyGateway := true }

/-- Configuration whose base URL carries a fragment. -/
def anchoredConfig : Configuration :=
  { pushInitiatorUrl := "https://pi.example/pi#top"
    providerApplicationId := "app1"
    usingPublicPushProxyGateway := false }

/-- A reply the transport finished with `ContentNotFoundError` (203) although its
body reads `rc=200`. -/
def notFound : QNetworkReply :=
  { error := 203
    errorString := "Error downloading https://pi.example/subscribe - server replied: Not Found"
    readAll := encode7bit "rc=200" }

/-! ## Lemmas on `httpFinished` -/

/-- The unknown-code message: the body is written in place of `%0`. -/
theorem arg_unknown (b : String) :
    arg (tr "Error: Unknown error code: %0.") b = "Error: Unknown error code: " ++ b ++ "." :=
  rfl

/-- Transport-failure branch of `httpFinished`. -/
theorem httpFinished_of_error (fromUtf8 : QByteArray → String) (self : State)
    (r : QNetworkReply) (hr : self.m_reply = some r) (he : r.error ≠ NoError) :
    httpFinished fromUtf8 self
      = some [.piRegistrationCompleted r.error r.errorString, .deleteLater] := by
  simp [httpFinished, hr, he]

/-- Success branch of `httpFinished`. -/
theorem httpFinished_of_ok (fromUtf8 : QByteArray → String) (self : State)
    (r : QNetworkReply) (hr : self.m_reply = some r) (he : r.error = NoError)
    (hb : fromUtf8 r.readAll = "rc=200") :
    httpFinished fromUtf8 self
      = some [.readAll, .save self.m_currentUser, .piRegistrationCompleted 200 "",
              .deleteLater] := by
  simp [httpFinished, hr, he, hb]

/-- Business-error branches of `httpFinished`: the rows of the table after the first. -/
theorem httpFinished_of_row (fromUtf8 : QByteArray → String) (self : State)
    (r : QNetworkReply) (hr : self.m_reply = some r) (he : r.error = NoError)
    (token : String) (code : Int) (description : String)
    (hrow : (token, code, description) ∈ responseTable.tail)
    (hb : fromUtf8 r.readAll = token) :
    httpFinished fromUtf8 self
      = some [.readAll, .piRegistrationCompleted code description, .deleteLater] := by
  simp only [responseTable, List.tail_cons, List.mem_cons, Prod.mk.injEq, List.mem_nil_iff,
    or_false] at hrow
  rcases hrow with h | h | h | h | h | h | h | h | h <;>
    obtain ⟨rfl, rfl, rfl⟩ := h <;>
    simp [httpFinished, hr, he, hb, tr]

/-- Fallthrough branch of `httpFinished`. -/
theorem httpFinished_of_unknown (fromUtf8 : QByteArray → String) (self : State)
    (r : QNetworkReply) (hr : self.m_reply = some r) (he : r.error = NoError)
    (hb : fromUtf8 r.readAll ∉ tokens) :
    httpFinished fromUtf8 self
      = some [.readAll,
              .piRegistrationCompleted (-1)
                ("Error: Unknown error code: " ++ fromUtf8 r.readAll ++ "."),
              .deleteLater] := by
  simp only [tokens, List.mem_cons, List.mem_nil_iff, or_false, not_or] at hb
  obtain ⟨h0, h1, h2, h3, h4, h5, h6, h7, h8, h9⟩ := hb
  simp [httpFinished, hr, he, h0, h1, h2, h3, h4, h5, h6, h7, h8, h9, arg_unknown]

/-- The unknown-code message is never empty. -/
theorem unknown_ne_empty (b : String) : "Error: Unknown error code: " ++ b ++ "." ≠ "" := by
  intro h
  have hlen := congrArg String.length h
  simp only [String.length_append] at hlen
  have h1 : ".".length = 1 := by decide
  have h0 : "".length = 0 := by decide
  omega

/-- Shape of every run of `httpFinished` on a non-null `m_reply`: the read of the
body (no-error path only), the save (body `rc=200` only), the notification and
the release of the reply. -/
theorem httpFinished_shape (fromUtf8 : QByteArray → String) (self : State)
    (r : QNetworkReply) (hr : self.m_reply = some r) :
    ∃ code description,
      httpFinished fromUtf8 self
        = some ((if r.error = NoError then [Effect.readAll] else [])
            ++ (if r.error = NoError ∧ fromUtf8 r.readAll = "rc=200"
                then [Effect.save self.m_currentUser] else [])
            ++ [Effect.piRegistrationCompleted code description, Effect.deleteLater]) := by
  by_cases he : r.error = NoError
  · by_cases hb : fromUtf8 r.readAll = "rc=200"
    · exact ⟨200, "", by simp [httpFinished_of_ok fromUtf8 self r hr he hb, he, hb]⟩
    · simp only [httpFinished, hr, he, hb, if_true, if_false, and_false]
      split_ifs <;> exact ⟨_, _, rfl⟩
  · exact ⟨r.error, r.errorString,
      by simp [httpFinished_of_error fromUtf8 self r hr he, he]⟩

/-- Notifications of a concatenated trace. -/
theorem notifications_append (xs ys : List Effect) :
    notifications (xs ++ ys) = notifications xs ++ notifications ys := by
  induction xs with
  | nil => rfl
  | cons x xs ih => cases x <;> simp [notifications, ih]

/-- Saves of a concatenated trace. -/
theorem saved_append (xs ys : List Effect) :
    saved (xs ++ ys) = saved xs ++ saved ys := by
  induction xs with
  | nil => rfl
  | cons x xs ih => cases x <;> simp [saved, ih]

/-- Requests of a concatenated trace. -/
theorem requested_append (xs ys : List Effect) :
    requested (xs ++ ys) = requested xs ++ requested ys := by
  induction xs with
  | nil => rfl
  | cons x xs ih => cases x <;> simp [requested, ih]

/-- The device queries notify nobody, save nothing and request nothing. -/
theorem deviceVersion_quiet (p : Bps) :
    notifications (deviceVersion p).2 = [] ∧ saved (deviceVersion p).2 = [] ∧
      requested (deviceVersion p).2 = [] := by
  unfold deviceVersion
  split_ifs <;> exact ⟨rfl, rfl, rfl⟩

/-- The device queries notify nobody, save nothing and request nothing. -/
theorem deviceModel_quiet (p : Bps) :
    notifications (deviceModel p).2 = [] ∧ saved (deviceModel p).2 = [] ∧
      requested (deviceModel p).2 = [] := by
  unfold deviceModel
  split_ifs <;> exact ⟨rfl, rfl, rfl⟩

/-- Every row after the first belongs to an error token: its code is neither 200
nor the sentinel and its description is not empty. -/
theorem error_rows :
    ∀ row ∈ responseTable.tail,
      row.1 ∈ tokens ∧ row.1 ≠ "rc=200" ∧ row.2.1 ≠ 200 ∧ row.2.1 ≠ -1 ∧ row.2.2 ≠ "" := by
  decide

/-- Every token is `rc=200` or heads one of the error rows. -/
theorem tokens_rows :
    ∀ t ∈ tokens, t = "rc=200" ∨ ∃ row ∈ responseTable.tail, row.1 = t := by
  decide

/-- A text without the delimiter is not cut. -/
theorem splitFirst_of_not_mem (d : Char) (l : List Char) (h : d ∉ l) :
    splitFirst d l = (l, none) := by
  induction l with
  | nil => rfl
  | cons c cs ih =>
      have hc : c ≠ d := fun e => h (by simp [e])
      have hcs : d ∉ cs := fun m => h (List.mem_cons_of_mem _ m)
      simp [splitFirst, hc, ih hcs]

/-- A text with neither `?` nor `#` parses to itself as target, with no query and
no fragment. -/
theorem ofString_plain (text : String) (hq : '?' ∉ text.data) (hf : '#' ∉ text.data) :
    QUrl.ofString text = { target := text, queryItems := [], fragment := none } := by
  simp [QUrl.ofString, splitFirst_of_not_mem _ _ hq, splitFirst_of_not_mem _ _ hf]

/-- The URL of the request, whatever the base URL is: the seven items follow the
query the parsed text already has. -/
theorem subscribeUrl_eq (config : Configuration) (user : User)
    (token osversion model : String) :
    subscribeUrl config user token osversion model
      = { QUrl.ofString (config.pushInitiatorUrl ++ "/subscribe") with
          queryItems :=
            (QUrl.ofString (config.pushInitiatorUrl ++ "/subscribe")).queryItems
              ++ [("appid", config.providerApplicationId), ("address", token),
                  ("osversion", osversion), ("model", model), ("username", user.userId),
                  ("password", user.password),
                  ("type",
                    if config.usingPublicPushProxyGateway = true then "public" else "bds")] } := by
  cases hp : config.usingPublicPushProxyGateway <;>
    simp [subscribeUrl, QUrl.addQueryItem, hp]

/-! ## Response interpretation -/

/-- C1: when the transport reports no error and the decoded body is one of the
ten defined response tokens, `httpFinished` emits exactly the
`(code, description)` pair of that token's row of the response table (empty
description for `rc=200`, the fixed message of the branch for each error
token). -/
theorem httpFinished_emits_table_row (fromUtf8 : QByteArray → String) (self : State)
    (r : QNetworkReply) (hr : self.m_reply = some r) (he : r.error = NoError)
    (token : String) (code : Int) (description : String)
    (hrow : (token, code, description) ∈ responseTable)
    (hb : fromUtf8 r.readAll = token) :
    ∃ trace, httpFinished fromUtf8 self = some trace ∧
      notifications trace = [(code, description)] := by
  rw [responseTable, List.mem_cons] at hrow
  rcases hrow with h | h
  · simp only [Prod.mk.injEq] at h
    obtain ⟨rfl, rfl, rfl⟩ := h
    exact ⟨_, httpFinished_of_ok fromUtf8 self r hr he hb, rfl⟩
  · exact ⟨_, httpFinished_of_row fromUtf8 self r hr he token code description h hb, rfl⟩

/-- Witness for C1: the scenario in which the push initiator answers `rc=10026`. -/
theorem httpFinished_emits_table_row_witness :
    (subscribeToPushInitiator (fun _ => replyWith "rc=10026") z10 z10 fresh alice
        "tok123").1.m_reply = some (replyWith "rc=10026") ∧
    (replyWith "rc=10026").error = NoError ∧
    decode7bit (replyWith "rc=10026").readAll = "rc=10026" ∧
    ∃ trace,
      httpFinished decode7bit
        (subscribeToPushInitiator (fun _ => replyWith "rc=10026") z10 z10 fresh alice
          "tok123").1 = some trace ∧
      notifications trace
        = [(10026, "Error: The username or password specified was incorrect.")] :=
  ⟨rfl, rfl, by decide,
   httpFinished_emits_table_row decode7bit _ (replyWith "rc=10026") rfl rfl "rc=10026" 10026
     "Error: The username or password specified was incorrect."
     (by simp [responseTable]) (by decide)⟩

/-- C2: when the transport reports no error and the decoded body is none of the
ten defined tokens (as is the case for `rc=42`, the empty body, `garbage` and
the near-misses of `rc=200`), `httpFinished` emits the sentinel code `-1` with
the description `Error: Unknown error code: <body>.`, which carries the body
verbatim, and the user store is not written. -/
theorem httpFinished_unknown_code (fromUtf8 : QByteArray → String) (self : State)
    (r : QNetworkReply) (hr : self.m_reply = some r) (he : r.error = NoError)
    (hb : fromUtf8 r.readAll ∉ tokens) :
    (∃ trace, httpFinished fromUtf8 self = some trace ∧
      notifications trace
        = [(-1, "Error: Unknown error code: " ++ fromUtf8 r.readAll ++ ".")] ∧
      saved trace = []) ∧
    ∀ b ∈ ["rc=42", "", "garbage", "rc=200\n", " rc=200", "RC=200"], b ∉ tokens :=
  ⟨⟨_, httpFinished_of_unknown fromUtf8 self r hr he hb, rfl, rfl⟩, by decide⟩

/-- Witness for C2: the body `rc=200` followed by a line feed. -/
theorem httpFinished_unknown_code_witness :
    decode7bit (replyWith "rc=200\n").readAll ∉ tokens ∧
    ((∃ trace,
      httpFinished decode7bit { fresh with m_reply := some (replyWith "rc=200\n") }
        = some trace ∧
      notifications trace
        = [(-1, "Error: Unknown error code: "
              ++ decode7bit (replyWith "rc=200\n").readAll ++ ".")] ∧
      saved trace = []) ∧
    ∀ b ∈ ["rc=42", "", "garbage", "rc=200\n", " rc=200", "RC=200"], b ∉ tokens) :=
  ⟨by decide,
   httpFinished_unknown_code decode7bit { fresh with m_reply := some (replyWith "rc=200\n") }
     (replyWith "rc=200\n") rfl rfl (by decide)⟩

/-- C4: when the transport reports an error, `httpFinished` emits the error's
numeric identifier and error string as they are, does not read the body (the
trace is the same whatever the body and the decoder are), and does not write the
user store. -/
theorem httpFinished_transport_failure (fromUtf8 : QByteArray → String) (self : State)
    (r : QNetworkReply) (hr : self.m_reply = some r) (he : r.error ≠ NoError) :
    ∃ trace, httpFinished fromUtf8 self = some trace ∧
      notifications trace = [(r.error, r.errorString)] ∧
      Effect.readAll ∉ trace ∧
      saved trace = [] ∧
      ∀ (decoder : QByteArray → String) (body : QByteArray),
        httpFinished decoder { self with m_reply := some { r with readAll := body } }
          = some trace := by
  refine ⟨_, httpFinished_of_error fromUtf8 self r hr he, rfl, by simp, rfl, ?_⟩
  intro decoder body
  exact httpFinished_of_error decoder _ { r with readAll := body } rfl he

/-- Witness for C4: connection refused (identifier 7) while the body reads `rc=200`. -/
theorem httpFinished_transport_failure_witness :
    ∃ trace,
      httpFinished decode7bit
        { fresh with
          m_reply := some { error := 7, errorString := "Connection refused",
                            readAll := encode7bit "rc=200" } } = some trace ∧
      notifications trace = [(7, "Connection refused")] ∧
      Effect.readAll ∉ trace ∧
      saved trace = [] ∧
      ∀ (decoder : QByteArray → String) (body : QByteArray),
        httpFinished decoder
          { fresh with
            m_reply := some { error := 7, errorString := "Connection refused",
                              readAll := body } } = some trace :=
  httpFinished_transport_failure decode7bit
    { fresh with
      m_reply := some { error := 7, errorString := "Connection refused",
                        readAll := encode7bit "rc=200" } }
    { error := 7, errorString := "Connection refused", readAll := encode7bit "rc=200" }
    rfl (by decide)

/-- C10: on the no-error path the following are equivalent for one run of
`httpFinished`: the body is `rc=200`; the emitted code is 200; the emitted
description is empty; the user store was written. The sentinel code `-1` is
emitted exactly when the body is none of the ten tokens. -/
theorem httpFinished_success_equivalences (fromUtf8 : QByteArray → String) (self : State)
    (r : QNetworkReply) (hr : self.m_reply = some r) (he : r.error = NoError) :
    ∃ code description trace,
      httpFinished fromUtf8 self = some trace ∧
      notifications trace = [(code, description)] ∧
      (fromUtf8 r.readAll = "rc=200" ↔ code = 200) ∧
      (code = 200 ↔ description = "") ∧
      (description = "" ↔ saved trace ≠ []) ∧
      (code = -1 ↔ fromUtf8 r.readAll ∉ tokens) := by
  by_cases hb : fromUtf8 r.readAll ∈ tokens
  · rcases tokens_rows _ hb with h | ⟨⟨t, c, d⟩, hrow, ht⟩
    · exact ⟨_, _, _, httpFinished_of_ok fromUtf8 self r hr he h, rfl,
        by simp [h], by simp, by simp [saved], by simp [hb]⟩
    · obtain ⟨-, h200, hc, hs, hd⟩ := error_rows _ hrow
      simp only at ht h200 hc hs hd
      subst ht
      exact ⟨c, d, _, httpFinished_of_row fromUtf8 self r hr he _ c d hrow rfl, rfl,
        by simp [h200, hc], by simp [hc, hd], by simp [saved, hd], by simp [hs, hb]⟩
  · exact ⟨_, _, _, httpFinished_of_unknown fromUtf8 self r hr he hb, rfl,
      by simp [show fromUtf8 r.readAll ≠ "rc=200" from fun h => hb (by simp [h, tokens])],
      by simp [unknown_ne_empty], by simp [saved, unknown_ne_empty], by simp [hb]⟩

/-- Witness for C10: the run on the body `rc=10028`. -/
theorem httpFinished_success_equivalences_witness :
    (replyWith "rc=10028").error = NoError ∧
    ∃ code description trace,
      httpFinished decode7bit { fresh with m_reply := some (replyWith "rc=10028") }
        = some trace ∧
      notifications trace = [(code, description)] ∧
      (decode7bit (replyWith "rc=10028").readAll = "rc=200" ↔ code = 200) ∧
      (code = 200 ↔ description = "") ∧
      (description = "" ↔ saved trace ≠ []) ∧
      (code = -1 ↔ decode7bit (replyWith "rc=10028").readAll ∉ tokens) :=
  ⟨rfl,
   httpFinished_success_equivalences decode7bit
     { fresh with m_reply := some (replyWith "rc=10028") } (replyWith "rc=10028") rfl rfl⟩

/-! ## Persistence -/

/-- C3 as stated fails: after `subscribeToPushInitiator(alice, tok123)` the
transport finishes the reply with error 203 and a body that reads `rc=200`; the
body equals `rc=200`, yet nothing is saved. -/
theorem save_iff_body_rc200_counterexample :
    decode7bit notFound.readAll = "rc=200" ∧
    (subscribeToPushInitiator (fun _ => notFound) z10 z10 fresh alice "tok123").1.m_reply
      = some notFound ∧
    (httpFinished decode7bit
      (subscribeToPushInitiator (fun _ => notFound) z10 z10 fresh alice "tok123").1).map saved
      = some [] := by
  decide

/-- C3, amended: for every user `u`, token `t` and every reply the transport
delivers for the request of `subscribeToPushInitiator(u, t)`, the run of
`httpFinished` that follows saves if and only if the transport status is no
error and the decoded body equals `rc=200`; it then saves exactly once, and what
it saves is `u`. `subscribeToPushInitiator` itself saves nothing. -/
theorem save_iff_no_error_and_rc200 (fromUtf8 : QByteArray → String)
    (get : QUrl → QNetworkReply) (forVersion forModel : Bps) (self : State) (u : User)
    (t : String) :
    saved (subscribeToPushInitiator get forVersion forModel self u t).2 = [] ∧
    ∃ r trace,
      (subscribeToPushInitiator get forVersion forModel self u t).1.m_reply = some r ∧
      httpFinished fromUtf8 (subscribeToPushInitiator get forVersion forModel self u t).1
        = some trace ∧
      saved trace
        = if r.error = NoError ∧ fromUtf8 r.readAll = "rc=200" then [u] else [] := by
  constructor
  · simp [subscribeToPushInitiator, saved_append, deviceVersion_quiet, deviceModel_quiet,
      saved]
  · obtain ⟨code, description, h⟩ :=
      httpFinished_shape fromUtf8 (subscribeToPushInitiator get forVersion forModel self u t).1
        _ rfl
    refine ⟨_, _, rfl, h, ?_⟩
    simp only [saved_append]
    split_ifs <;> simp_all [saved, subscribeToPushInitiator]

/-! ## Request construction -/

/-- C5 as stated fails: with the base URL `https://pi.example/pi?debug=1` the
request carries eight query items, the first being the one the base URL brought
along, and does not target `pushInitiatorUrl + "/subscribe"`; with the base URL
`https://pi.example/pi#top` the appended `/subscribe` ends up in the fragment. -/
theorem subscribe_request_counterexample :
    requested
        (subscribeToPushInitiator (fun _ => replyWith "rc=200") z10 z10
          { fresh with m_configurationService := debugConfig } alice "tok123").2
      = [{ target := "https://pi.example/pi"
           queryItems :=
             [("debug", "1/subscribe"), ("appid", "app1"), ("address", "tok123"),
              ("osversion", "10.3"), ("model", "Z10"), ("username", "alice"),
              ("password", "secret"), ("type", "public")]
           fragment := none }] ∧
    requested
        (subscribeToPushInitiator (fun _ => replyWith "rc=200") z10 z10
          { fresh with m_configurationService := anchoredConfig } alice "tok123").2
      = [{ target := "https://pi.example/pi"
           queryItems :=
             [("appid", "app1"), ("address", "tok123"), ("osversion", "10.3"),
              ("model", "Z10"), ("username", "alice"), ("password", "secret"),
              ("type", "bds")]
           fragment := some "top/subscribe" }] := by
  decide

/-- C5, amended: when `pushInitiatorUrl` contains neither `?` nor `#`, the request
of `subscribeToPushInitiator` targets `pushInitiatorUrl + "/subscribe"` and
carries exactly the seven query items
`appid, address, osversion, model, username, password, type`, in that order, with
the application id, the token, the device strings, the user id and the password
unmodified, and `type` equal to `public` or `bds` according to
`usingPublicPushProxyGateway`. The URL requested is the one built from the
results of `deviceVersion` and `deviceModel`. -/
theorem subscribe_request (get : QUrl → QNetworkReply) (forVersion forModel : Bps)
    (self : State) (user : User) (token osversion model : String)
    (config : Configuration)
    (hq : '?' ∉ config.pushInitiatorUrl.data) (hf : '#' ∉ config.pushInitiatorUrl.data) :
    subscribeUrl config user token osversion model
      = { target := config.pushInitiatorUrl ++ "/subscribe"
          queryItems :=
            [("appid", config.providerApplicationId), ("address", token),
             ("osversion", osversion), ("model", model), ("username", user.userId),
             ("password", user.password),
             ("type", if config.usingPublicPushProxyGateway = true then "public" else "bds")]
          fragment := none } ∧
    (subscribeUrl config user token osversion model).queryItems.map Prod.fst
      = ["appid", "address", "osversion", "model", "username", "password", "type"] ∧
    (subscribeUrl config user token osversion model).queryItems.length = 7 ∧
    requested (subscribeToPushInitiator get forVersion forModel self user token).2
      = [subscribeUrl self.m_configurationService user token (deviceVersion forVersion).1
          (deviceModel forModel).1] := by
  have hq2 : '?' ∉ (config.pushInitiatorUrl ++ "/subscribe").data := by
    rw [String.data_append, List.mem_append]
    exact fun h => h.elim hq (by decide)
  have hf2 : '#' ∉ (config.pushInitiatorUrl ++ "/subscribe").data := by
    rw [String.data_append, List.mem_append]
    exact fun h => h.elim hf (by decide)
  have hurl : subscribeUrl config user token osversion model
      = { target := config.pushInitiatorUrl ++ "/subscribe"
          queryItems :=
            [("appid", config.providerApplicationId), ("address", token),
             ("osversion", osversion), ("model", model), ("username", user.userId),
             ("password", user.password),
             ("type", if config.usingPublicPushProxyGateway = true then "public" else "bds")]
          fragment := none } := by
    rw [subscribeUrl_eq, ofString_plain _ hq2 hf2]
    rfl
  refine ⟨hurl, ?_, ?_, ?_⟩
  · rw [hurl]; rfl
  · rw [hurl]; rfl
  · simp [subscribeToPushInitiator, requested_append, deviceVersion_quiet, deviceModel_quiet,
      requested]

/-- Witness for C5: the scenario configuration, whose base URL is
`https://pi.example`. -/
theorem subscribe_request_witness :
    '?' ∉ exampleConfig.pushInitiatorUrl.data ∧ '#' ∉ exampleConfig.pushInitiatorUrl.data ∧
    subscribeUrl exampleConfig alice "tok123" "10.3" "Z10"
      = { target := "https://pi.example" ++ "/subscribe"
          queryItems :=
            [("appid", "app1"), ("address", "tok123"), ("osversion", "10.3"),
             ("model", "Z10"), ("username", "alice"), ("password", "secret"),
             ("type", "public")]
          fragment := none } :=
  ⟨by decide, by decide,
   (subscribe_request (fun _ => replyWith "rc=200") z10 z10 fresh alice "tok123" "10.3" "Z10"
      exampleConfig (by decide) (by decide)).1⟩

/-! ## Notification, ordering and release -/

/-- C6: whatever the reply behind `m_reply` holds, one run of `httpFinished`
completes and emits exactly one `piRegistrationCompleted`;
`subscribeToPushInitiator` emits none; hence a subscribe followed by the run of
`httpFinished` for its reply emits exactly one. -/
theorem exactly_one_notification (fromUtf8 : QByteArray → String)
    (get : QUrl → QNetworkReply) (forVersion forModel : Bps) (self : State) (user : User)
    (token : String) (r : QNetworkReply) :
    (∃ trace, httpFinished fromUtf8 { self with m_reply := some r } = some trace ∧
      (notifications trace).length = 1) ∧
    notifications (subscribeToPushInitiator get forVersion forModel self user token).2 = [] ∧
    ∃ trace,
      httpFinished fromUtf8 (subscribeToPushInitiator get forVersion forModel self user token).1
        = some trace ∧
      (notifications
        ((subscribeToPushInitiator get forVersion forModel self user token).2 ++ trace)).length
        = 1 := by
  have hsub :
      notifications (subscribeToPushInitiator get forVersion forModel self user token).2
        = [] := by
    simp [subscribeToPushInitiator, notifications_append, deviceVersion_quiet,
      deviceModel_quiet, notifications]
  have hrun : ∀ s : State, ∀ q : QNetworkReply, s.m_reply = some q →
      ∃ trace, httpFinished fromUtf8 s = some trace ∧ (notifications trace).length = 1 := by
    intro s q hq
    obtain ⟨code, description, h⟩ := httpFinished_shape fromUtf8 s q hq
    refine ⟨_, h, ?_⟩
    simp only [notifications_append]
    split_ifs <;> simp [notifications]
  refine ⟨hrun _ r rfl, hsub, ?_⟩
  obtain ⟨trace, h, hlen⟩ :=
    hrun (subscribeToPushInitiator get forVersion forModel self user token).1 _ rfl
  exact ⟨trace, h, by rw [notifications_append, hsub]; simpa using hlen⟩

/-- C7: whatever the reply behind `m_reply` holds, the trace of `httpFinished` is:
the read of the body (no-error path only), the save (no error and body `rc=200`
only), the notification, the release of the reply. So a save precedes the
notification, and the release happens exactly once, last, on every path. -/
theorem httpFinished_order (fromUtf8 : QByteArray → String) (self : State)
    (r : QNetworkReply) :
    ∃ code description trace,
      httpFinished fromUtf8 { self with m_reply := some r } = some trace ∧
      trace
        = (if r.error = NoError then [Effect.readAll] else [])
          ++ (if r.error = NoError ∧ fromUtf8 r.readAll = "rc=200"
              then [Effect.save self.m_currentUser] else [])
          ++ [Effect.piRegistrationCompleted code description, Effect.deleteLater] ∧
      trace.count Effect.deleteLater = 1 ∧
      trace.getLast? = some Effect.deleteLater := by
  obtain ⟨code, description, h⟩ :=
    httpFinished_shape fromUtf8 { self with m_reply := some r } r rfl
  refine ⟨code, description, _, h, rfl, ?_, ?_⟩
  · split_ifs <;> simp [List.count_cons]
  · split_ifs <;> simp

/-! ## Certificate errors -/

/-- C8: for every reply and every list of certificate errors, empty or not,
`onSslErrors` does one thing: it tells that reply to ignore errors, and the list
it hands over is the list it was given, so an error is ignored exactly when it
was reported. -/
theorem onSslErrors_ignores_all (reply : QNetworkReply) (errors : List QSslError) :
    onSslErrors reply errors = [Effect.ignoreSslErrors reply errors] ∧
    ignored (onSslErrors reply errors) = [errors] ∧
    ∀ e, e ∈ errors ↔ ∃ l ∈ ignored (onSslErrors reply errors), e ∈ l := by
  refine ⟨rfl, rfl, fun e => ?_⟩
  simp [onSslErrors, ignored]

/-! ## Device identity -/

/-- C9: `deviceVersion` returns the platform's OS version when initialization and
detail retrieval both succeed and the empty string when either fails;
`deviceModel` does the same with the hardware identifier. Each call runs its own
sequence on the platform (initialize; if that succeeded, get-details, the
release of the details if there are any, and shutdown), and inside
`subscribeToPushInitiator` the two sequences follow one another, each with its
own answers of the platform. -/
theorem device_queries (p q : Bps) (get : QUrl → QNetworkReply) (self : State)
    (user : User) (token : String) :
    (deviceVersion p).1
      = (if p.bps_init = BPS_SUCCESS ∧ p.deviceinfo_get_details = BPS_SUCCESS
         then p.device_os_version else "") ∧
    (deviceModel q).1
      = (if q.bps_init = BPS_SUCCESS ∧ q.deviceinfo_get_details = BPS_SUCCESS
         then q.hardware_id else "") ∧
    (deviceVersion p).2
      = Effect.bps_init ::
          (if p.bps_init = BPS_SUCCESS then
            Effect.deviceinfo_get_details ::
              ((if p.deviceinfo_get_details = BPS_SUCCESS
                then [Effect.deviceinfo_free_details] else [])
                ++ [Effect.bps_shutdown])
           else []) ∧
    (deviceModel q).2
      = Effect.bps_init ::
          (if q.bps_init = BPS_SUCCESS then
            Effect.deviceinfo_get_details ::
              ((if q.deviceinfo_get_details = BPS_SUCCESS
                then [Effect.deviceinfo_free_details] else [])
                ++ [Effect.bps_shutdown])
           else []) ∧
    (subscribeToPushInitiator get p q self user token).2
      = (deviceVersion p).2 ++ (deviceModel q).2
        ++ [Effect.get (subscribeUrl self.m_configurationService user token
              (deviceVersion p).1 (deviceModel q).1),
            Effect.connectFinished] := by
  refine ⟨?_, ?_, ?_, ?_, rfl⟩
  · unfold deviceVersion
    split_ifs <;> simp_all
  · unfold deviceModel
    split_ifs <;> simp_all
  · unfold deviceVersion
    split_ifs <;> simp_all
  · unfold deviceModel
    split_ifs <;> simp_all

end RegisterService
